import Mathlib

/-!
Verification development for the Mini-MBE manipulator core: the register
codec (`src/utils/modbus_utils.py`), the speed policy (`src/utils/speed.py`),
the SMCD14 axis controller (`src/controllers/smcd14_controller.py`) and the
multi-axis manager (`src/controllers/manipulator_manager.py`).

Modelling conventions:
- Python float arithmetic is modelled by exact rational arithmetic (`ℚ`);
  every rational is finite, so `math.isfinite` checks are vacuously true.
- A 32-bit float is modelled by its 32-bit big-endian bit pattern (a `ℕ`
  below `2 ^ 32`): `struct.pack(">f", x)` / `struct.unpack(">f", ...)` are
  mutually inverse bijections between finite binary32 floats and their
  patterns, so register round trips on floats are exactly round trips on
  patterns.
- Hardware interaction is modelled by explicit traces: the register writes
  a controller method issues, the sequence of status words a polling loop
  observes, and the measured wall-clock duration of each hop move.
-/

/-! ## Constants (from `src/utils/speed.py` and `manipulator_manager.py`) -/

/-- Constant `MIN_AXIS_SPEED = 1e-5` mm/s (`src/utils/speed.py`). -/
def MIN_AXIS_SPEED : ℚ := 1 / 100000

/-- Constant `MAX_AXIS_SPEED = 1.0` mm/s (`src/utils/speed.py`). -/
def MAX_AXIS_SPEED : ℚ := 1

/-- Constant `SPEED_THRESHOLD = 5e-6`, the snap-to-zero threshold (`src/utils/speed.py`). -/
def SPEED_THRESHOLD : ℚ := 5 / 1000000

/-- Constant `EPSILON = 4e-4` mm, minimal positional delta that triggers a move
(`src/controllers/manipulator_manager.py`). -/
def EPSILON : ℚ := 4 / 10000

/-- Constant `STOP_GO_SPEED_THRESHOLD = 1e-4` mm/s (`manipulator_manager.py`). -/
def STOP_GO_SPEED_THRESHOLD : ℚ := 1 / 10000

/-- Constant `STOP_GO_HOP_SPEED = 1e-3` mm/s (`manipulator_manager.py`). -/
def STOP_GO_HOP_SPEED : ℚ := 1 / 1000

/-- Constant `STOP_GO_STEP_FRACTION = 0.1` (`manipulator_manager.py`). -/
def STOP_GO_STEP_FRACTION : ℚ := 1 / 10

/-! ## Speed policy (`src/utils/speed.py`) -/

/-- Python `math.copysign(mag, s)`: magnitude of `mag` with the sign of `s`
(no negative zero in `ℚ`). -/
def copysign (mag s : ℚ) : ℚ := if s < 0 then -|mag| else |mag|

/-- Function `adjust_axis_speed` from `src/utils/speed.py` lines 27-35: snap values
below `SPEED_THRESHOLD` to `0`, clamp the magnitude into
`[MIN_AXIS_SPEED, MAX_AXIS_SPEED]` preserving sign, else pass through. -/
def adjust_axis_speed (speed : ℚ) : ℚ :=
  if |speed| < SPEED_THRESHOLD then 0
  else if |speed| < MIN_AXIS_SPEED then copysign MIN_AXIS_SPEED speed
  else if MAX_AXIS_SPEED < |speed| then copysign MAX_AXIS_SPEED speed
  else speed

/-- Function `validate_speed` from `src/utils/speed.py` lines 13-24, as the predicate
"the call raises `ValueError`".  The source raises when
`speed < MIN_AXIS_SPEED` or `speed > math.sqrt(3) * MAX_AXIS_SPEED`.  In the
exact rational model the second (real-valued) comparison is encoded by
squares: for any speed that reaches it (`speed ≥ MIN_AXIS_SPEED > 0`),
`speed > sqrt 3 * MAX_AXIS_SPEED ↔ speed^2 > 3 * MAX_AXIS_SPEED^2`; for
`speed < MIN_AXIS_SPEED` the first disjunct fires regardless, so this
boolean agrees with the source on every input. -/
def validate_speed_errors (speed : ℚ) : Bool :=
  decide (speed < MIN_AXIS_SPEED) ||
    decide (3 * (MAX_AXIS_SPEED * MAX_AXIS_SPEED) < speed * speed)

/-! ## Vector-move speed decomposition (`manipulator_manager.py` `_move_axes`) -/

/-- The per-axis commanded speed of `_move_axes` (line 327):
`adjust_axis_speed(abs(speed * delta / distance))`. -/
def move_axes_axis_speed (speed delta distance : ℚ) : ℚ :=
  adjust_axis_speed |speed * delta / distance|

/-- The list of speeds of the axes actually commanded by `_move_axes`
(non-`force_direct` path): an axis is skipped when `|delta| ≤ EPSILON`
(line 324), otherwise commanded at `move_axes_axis_speed` (line 327). -/
def move_axes_active_speeds (dx dy dz speed distance : ℚ) : List ℚ :=
  (([dx, dy, dz].filter fun d => decide (EPSILON < |d|)).map
    fun d => move_axes_axis_speed speed d distance)

/-! ## Register codec (`src/utils/modbus_utils.py`)

A finite binary32 float is represented by its 32-bit big-endian bit pattern
`w < 2^32`; `struct.pack(">f", x)` yields the four bytes of `w`, most
significant first. -/

/-- The four bytes of `struct.pack(">f", w)` applied to the pattern `w`,
most significant byte first. -/
def pack_float_be (w : ℕ) : ℕ × ℕ × ℕ × ℕ :=
  (w / 2 ^ 24 % 256, w / 2 ^ 16 % 256, w / 2 ^ 8 % 256, w % 256)

/-- Python `struct.unpack(">H", b)` on two bytes: the big-endian 16-bit word. -/
def word_be (b0 b1 : ℕ) : ℕ := b0 * 256 + b1

/-- The two bytes of `struct.pack(">H", r)` for a 16-bit register value. -/
def pack_word_be (r : ℕ) : ℕ × ℕ := (r / 256 % 256, r % 256)

/-- Function `float_to_registers` from `src/utils/modbus_utils.py` lines 3-9: pack
the float big-endian, return `(word of bytes 2..3, word of bytes 0..1)`,
i.e. the lower word first. -/
def float_to_registers (w : ℕ) : ℕ × ℕ :=
  let b := pack_float_be w
  (word_be b.2.2.1 b.2.2.2, word_be b.1 b.2.1)

/-- Function `registers_to_float` from `src/utils/modbus_utils.py` lines 11-16:
`struct.pack(">HH", registers[1], registers[0])` followed by
`struct.unpack(">f", packed)` — the resulting 32-bit pattern. -/
def registers_to_float (registers : ℕ × ℕ) : ℕ :=
  let hi := pack_word_be registers.2
  let lo := pack_word_be registers.1
  ((word_be hi.1 hi.2) * 2 ^ 16) + word_be lo.1 lo.2

/-! ## SMCD14 controller register writes (`src/controllers/smcd14_controller.py`) -/

/-- Register addresses from `smcd14_controller.py` lines 25-35. -/
def MOVE_TYPE_ADDR : ℕ := 0

/-- Target position register pair base address. -/
def TARGET_POS_ADDR : ℕ := 2

/-- Target velocity register pair base address. -/
def TARGET_VEL_ADDR : ℕ := 8

/-- Start-request pulse register address. -/
def START_REQ_ADDR : ℕ := 15

/-- One Modbus register write issued by the controller: either a single
16-bit register write (`write_register`) or a float written as a register
pair (`write_registers` with a codec-encoded value). -/
inductive RegWrite where
  | single (addr : ℕ) (value : ℕ)
  | floatPair (addr : ℕ) (value : ℚ)
deriving DecidableEq, Repr

/-- The register writes issued by `ManipulatorController.move_absolute`
(`smcd14_controller.py` lines 191-207): move type `1`, target position,
target velocity, then a single write of `1` to the start-request register —
the method returns without writing `0` back or polling the register. -/
def move_absolute_writes (position velocity : ℚ) : List RegWrite :=
  [.single MOVE_TYPE_ADDR 1,
   .floatPair TARGET_POS_ADDR position,
   .floatPair TARGET_VEL_ADDR velocity,
   .single START_REQ_ADDR 1]

/-- The register writes issued by `ManipulatorController.move_relative`
(`smcd14_controller.py` lines 209-225): move type `2`, signed distance,
target velocity, then a single write of `1` to the start-request register. -/
def move_relative_writes (distance velocity : ℚ) : List RegWrite :=
  [.single MOVE_TYPE_ADDR 2,
   .floatPair TARGET_POS_ADDR distance,
   .floatPair TARGET_VEL_ADDR velocity,
   .single START_REQ_ADDR 1]

/-- The values written to the start-request register, in order, within a
write trace (what `test_start_request_reset.py` collects as `start_writes`). -/
def start_req_values (writes : List RegWrite) : List ℕ :=
  writes.filterMap fun w =>
    match w with
    | .single addr v => if addr = START_REQ_ADDR then some v else none
    | .floatPair _ _ => none

/-- Method `ManipulatorController.wait_until_in_position` from
`smcd14_controller.py` lines 343-351, over the sequence of status words the
0.5 s poll loop reads before the timeout expires: the method returns `True`
as soon as a polled status has bit 4 set (`status_val & 16`), and `False`
if no polled status does.  The method has no `target` parameter and never
reads the position. -/
def wait_until_in_position (statuses : List ℕ) : Bool :=
  statuses.any fun s => decide (s &&& 16 ≠ 0)

/-! ## Manager: per-axis wait timeout (`manipulator_manager.py` lines 347-352) -/

/-- The wait timeout `_move_axes` passes to `wait_until_in_position`:
`travel = abs(delta)`; if `axis_speed > 0` (and finite, vacuous in `ℚ`)
then `max(15.0, (travel / axis_speed) * 3.0)`, else `15.0`. -/
def move_axes_wait_timeout (delta axis_speed : ℚ) : ℚ :=
  if 0 < axis_speed then max 15 ((|delta| / axis_speed) * 3) else 15

/-! ## Manager: `move_axis` single-axis action (`manipulator_manager.py` lines 167-231) -/

/-- One hardware transaction attempted by the `move_axis` worker action. -/
inductive AxisTxn where
  | readPosition
  | motorOn
  | moveAbsolute (position speed : ℚ)
  | wait (target : ℚ)
  | readStatus
  | readErrorCode
deriving DecidableEq, Repr

/-- Result of `wait_until_in_position` as observed by `move_axis`:
arrived (`True`), not arrived (`False`), or the `MotionNeverStartedError`
exception. -/
inductive WaitOutcome where
  | arrived
  | notArrived
  | neverStarted
deriving DecidableEq, Repr

/-- Outcome of the `move_axis` worker action. -/
inductive MoveAxisResult where
  | alreadyAt
  | moved
  | stopped
  | failed
  | errorNeverStarted
deriving DecidableEq, Repr

/-- The `move_axis` path taken when the early "already at position" return
does not fire (`manipulator_manager.py` lines 177-229): motor on, abort
flag cleared, `move_absolute(position, adjust_axis_speed(abs(speed)))`,
wait; then the outcome depends on the wait result and on whether the
abort flag of the axis was set. -/
def move_axis_go (position speed : ℚ) (wres : WaitOutcome) (abortFlag : Bool) :
    List AxisTxn × MoveAxisResult :=
  let v := adjust_axis_speed |speed|
  let pre : List AxisTxn :=
    [.readPosition, .motorOn, .moveAbsolute position v, .wait position]
  match wres with
  | .neverStarted => (pre ++ [.readStatus, .readErrorCode], .errorNeverStarted)
  | .notArrived =>
      if abortFlag then (pre, .stopped)
      else (pre ++ [.readErrorCode, .readStatus], .failed)
  | .arrived =>
      if abortFlag then (pre, .stopped) else (pre, .moved)

/-- The `move_axis` worker action (`manipulator_manager.py` lines 170-229):
read the current position (`None` when the read raised); if it read
successfully and `abs(current - position) <= EPSILON`, return
"already at position" with no further transaction; otherwise proceed with
the move. -/
def move_axis_action (current : Option ℚ) (position speed : ℚ)
    (wres : WaitOutcome) (abortFlag : Bool) : List AxisTxn × MoveAxisResult :=
  match current with
  | some c =>
      if |c - position| ≤ EPSILON then ([.readPosition], .alreadyAt)
      else move_axis_go position speed wres abortFlag
  | none => move_axis_go position speed wres abortFlag

/-! ## Manager: abort arbitration in `_move_axes` (`manipulator_manager.py` lines 363-411, 556-569) -/

/-- Method `_consume_axis_abort` (lines 560-565): under the abort lock, if the
axis is in the aborted set remove it and report `True`, else `False`.
The aborted-axes set of the manager is a Python `set`, modelled by a `Finset`. -/
def consume_axis_abort (aborted : Finset String) (axis : String) :
    Bool × Finset String :=
  if axis ∈ aborted then (true, aborted.erase axis) else (false, aborted)

/-- A notification the manager emits while handling the wait result of one axis:
a transaction-log entry (`_log_event` with the given action tag), an
`error_occurred` signal, or a `status_updated` signal. -/
inductive MgrEvent where
  | logged (axis action : String)
  | errorOccurred (axis : String)
  | statusUpdated (msg : String)
deriving DecidableEq, Repr

/-- Result of `wait_until_in_position` as seen by `_move_axes`: `True`
(arrived), `None` (paused), `False` (not arrived), or the
`MotionNeverStartedError` exception. -/
inductive MgrWaitResult where
  | arrived
  | paused
  | notArrived
  | neverStarted
deriving DecidableEq, Repr

/-- How `_move_axes` continues after handling the wait result of one axis. -/
inductive WaitHandling where
  | proceed
  | pausedRestart
  | abortedStop
  | errorStop
deriving DecidableEq, Repr

/-- The `_move_axes` wait-loop body for one axis
(`manipulator_manager.py` lines 363-417): on `MotionNeverStartedError` log
an error and emit `error_occurred`; on `None` mark paused; on `False`
consume the abort flag of the axis — if it was set, log an "aborted" entry and
emit a benign status message, otherwise log an error and emit
`error_occurred`; on `True` log "in_position". -/
def handle_wait_result (aborted : Finset String) (axis : String)
    (r : MgrWaitResult) : List MgrEvent × Finset String × WaitHandling :=
  match r with
  | .neverStarted =>
      ([.logged axis "error", .errorOccurred axis], aborted, .errorStop)
  | .paused => ([], aborted, .pausedRestart)
  | .arrived => ([.logged axis "in_position"], aborted, .proceed)
  | .notArrived =>
      let res := consume_axis_abort aborted axis
      if res.1 then
        ([.logged axis "aborted", .statusUpdated (axis ++ " move stopped")],
         res.2, .abortedStop)
      else
        ([.logged axis "error", .errorOccurred axis], res.2, .errorStop)

/-! ## Manager: stop-and-go mode (`manipulator_manager.py` lines 436-505) -/

/-- The hop segment lengths of `_move_axes_stop_and_go`: for each of the
`steps` loop iterations, `segment = min(step_length, distance - travelled)`
with `travelled` accumulating the segments. -/
def stop_go_segments (distance step : ℚ) : ℕ → ℚ → List ℚ
  | 0, _ => []
  | n + 1, travelled =>
      let seg := min step (distance - travelled)
      seg :: stop_go_segments distance step n (travelled + seg)

/-- Source line 449: `steps = max(1, math.ceil(distance / step_length))`. -/
def stop_go_steps (distance step : ℚ) : ℕ :=
  max 1 (Int.ceil (distance / step)).toNat

/-- The dwell slept after one hop (lines 481-487): with the measured move
duration `t` (replaced by the synthetic `segment / move_speed` when not
positive), `dwell = max(0.0, segment / requested_speed - t)`.  The dwell is
slept in 0.1 s chunks, each chunk subtracting its measured elapsed time
from the remainder, so the total time slept equals the dwell. -/
def stop_go_hop_dwell (segment rs move_speed t : ℚ) : ℚ :=
  let t2 := if t ≤ 0 then segment / move_speed else t
  max 0 (segment / rs - t2)

/-- Method `_move_axes_stop_and_go(start, target, requested_speed, distance)`
(lines 436-505), abstracted over the measured duration of each hop move
(`times`, one entry per hop, all hops assumed to succeed): `none` when
`requested_speed <= 0` (the source raises `ValueError`), otherwise the
number of hop moves issued and the total dwell time slept. -/
def move_axes_stop_and_go (nozzle distance rs : ℚ) (times : List ℚ) :
    Option (ℕ × ℚ) :=
  if rs ≤ 0 then none
  else
    let step := max (nozzle * STOP_GO_STEP_FRACTION) EPSILON
    let steps := stop_go_steps distance step
    let move_speed := max STOP_GO_HOP_SPEED rs
    let segs := stop_go_segments distance step steps 0
    some (steps,
      (List.zipWith (fun seg t => stop_go_hop_dwell seg rs move_speed t)
        segs times).sum)

/-! ## Manager: nozzle diameter and stop-and-go delegation
(`manipulator_manager.py` lines 78-81, 283-288) -/

/-- Method `set_nozzle_diameter` (lines 78-81): the stored value is
`max(0.0, float(diameter_mm))`. -/
def set_nozzle_diameter (diameter_mm : ℚ) : ℚ := max 0 diameter_mm

/-- The `_move_axes` delegation test (lines 283-288): stop-and-go is used
exactly when not `force_direct`, `speed < STOP_GO_SPEED_THRESHOLD` and
`nozzle_diameter_mm > 0.0`. -/
def stop_go_delegates (force_direct : Bool) (speed nozzle : ℚ) : Bool :=
  !force_direct && decide (speed < STOP_GO_SPEED_THRESHOLD) &&
    decide (0 < nozzle)

/-! ## Helper lemmas on the speed policy -/

lemma copysign_abs (m s : ℚ) : |copysign m s| = |m| := by
  unfold copysign
  split
  · rw [abs_neg, abs_abs]
  · rw [abs_abs]

lemma copysign_mul_self (m s : ℚ) : copysign m s * copysign m s = |m| * |m| := by
  unfold copysign
  split
  · ring
  · ring

lemma adjust_axis_speed_range (v : ℚ) :
    adjust_axis_speed v = 0 ∨
      (MIN_AXIS_SPEED ≤ |adjust_axis_speed v| ∧
        |adjust_axis_speed v| ≤ MAX_AXIS_SPEED) := by
  by_cases h1 : |v| < SPEED_THRESHOLD
  · left
    simp [adjust_axis_speed, h1]
  · by_cases h2 : |v| < MIN_AXIS_SPEED
    · right
      simp only [adjust_axis_speed, h1, if_false, h2, if_true, copysign_abs]
      rw [abs_of_nonneg (by norm_num [MIN_AXIS_SPEED])]
      exact ⟨le_rfl, by norm_num [MIN_AXIS_SPEED, MAX_AXIS_SPEED]⟩
    · by_cases h3 : MAX_AXIS_SPEED < |v|
      · right
        simp only [adjust_axis_speed, h1, if_false, h2, h3, if_true, copysign_abs]
        rw [abs_of_nonneg (by norm_num [MAX_AXIS_SPEED])]
        exact ⟨by norm_num [MIN_AXIS_SPEED, MAX_AXIS_SPEED], le_rfl⟩
      · right
        simp only [adjust_axis_speed, h1, if_false, h2, h3]
        exact ⟨le_of_not_lt h2, le_of_not_lt h3⟩

lemma adjust_axis_speed_sq_le (v : ℚ) :
    adjust_axis_speed v * adjust_axis_speed v
      ≤ v * v + MIN_AXIS_SPEED * MIN_AXIS_SPEED := by
  have hvv : v * v = |v| * |v| := (abs_mul_abs_self v).symm
  by_cases h1 : |v| < SPEED_THRESHOLD
  · simp only [adjust_axis_speed, h1, if_true, mul_zero]
    nlinarith [mul_self_nonneg v, mul_self_nonneg MIN_AXIS_SPEED]
  · by_cases h2 : |v| < MIN_AXIS_SPEED
    · simp only [adjust_axis_speed, h1, if_false, h2, if_true, copysign_mul_self]
      rw [abs_of_nonneg (by norm_num [MIN_AXIS_SPEED] : (0:ℚ) ≤ MIN_AXIS_SPEED)]
      nlinarith [mul_self_nonneg v]
    · by_cases h3 : MAX_AXIS_SPEED < |v|
      · simp only [adjust_axis_speed, h1, if_false, h2, h3, if_true, copysign_mul_self]
        rw [abs_of_nonneg (by norm_num [MAX_AXIS_SPEED] : (0:ℚ) ≤ MAX_AXIS_SPEED)]
        have hle : MAX_AXIS_SPEED * MAX_AXIS_SPEED ≤ |v| * |v| :=
          mul_self_le_mul_self (by norm_num [MAX_AXIS_SPEED]) (le_of_lt h3)
        nlinarith [mul_self_nonneg MIN_AXIS_SPEED]
      · simp only [adjust_axis_speed, h1, if_false, h2, h3]
        nlinarith [mul_self_nonneg MIN_AXIS_SPEED]

lemma sum_sq_filter_le (l : List ℚ) (p : ℚ → Bool) (f : ℚ → ℚ) :
    ((l.filter p).map fun d => f d * f d).sum
      ≤ (l.map fun d => f d * f d).sum := by
  induction l with
  | nil => simp
  | cons a t ih =>
    by_cases h : p a
    · rw [List.filter_cons_of_pos h]
      simp only [List.map_cons, List.sum_cons]
      exact add_le_add_left ih _
    · rw [List.filter_cons_of_neg h]
      simp only [List.map_cons, List.sum_cons]
      nlinarith [mul_self_nonneg (f a)]

/-- C1, counterexample.  Vector move from `(0,0,0)` to `(3,4,0)` (distance
`5`, both commanded deltas exceed `EPSILON`) at requested speed
`s = 1.5e-5`: the x share `9e-6` is clamped up to `MIN_AXIS_SPEED = 1e-5`,
and the Euclidean norm of the commanded axis speeds exceeds `s` — the
decomposition amplifies the requested speed, refuting the claim. -/
theorem c1_speeds_counterexample :
    EPSILON < |(3:ℚ)| ∧ EPSILON < |(4:ℚ)| ∧ ¬ EPSILON < |(0:ℚ)| ∧
    (5:ℚ) * 5 = 3 * 3 + 4 * 4 + 0 * 0 ∧
    move_axes_active_speeds 3 4 0 (3/200000) 5 = [1/100000, 3/250000] ∧
    (3/200000 : ℚ) * (3/200000)
      < (1/100000) * (1/100000) + (3/250000) * (3/250000) := by
  refine ⟨by norm_num [EPSILON], by norm_num [EPSILON], by norm_num [EPSILON],
    by norm_num, ?_, by norm_num⟩
  norm_num [move_axes_active_speeds, move_axes_axis_speed, adjust_axis_speed,
    copysign, SPEED_THRESHOLD, MIN_AXIS_SPEED, MAX_AXIS_SPEED, EPSILON, abs,
    List.filter]

/-- C1, amended.  For every vector move decomposed by `_move_axes` with
`distance > 0`: each commanded axis speed is either exactly `0` or has
magnitude in `[MIN_AXIS_SPEED, MAX_AXIS_SPEED]`, and the squared Euclidean
norm of the commanded axis speeds is at most
`speed^2 + 3 * MIN_AXIS_SPEED^2` (each axis can be clamped up by at most
`MIN_AXIS_SPEED`); the norm bound `≤ speed` itself fails when a sub-minimum
share is clamped up. -/
theorem c1_speeds_amended (speed dx dy dz distance : ℚ) (hd : 0 < distance)
    (hsq : distance * distance = dx * dx + dy * dy + dz * dz) :
    (∀ v ∈ move_axes_active_speeds dx dy dz speed distance,
        v = 0 ∨ (MIN_AXIS_SPEED ≤ |v| ∧ |v| ≤ MAX_AXIS_SPEED)) ∧
    ((move_axes_active_speeds dx dy dz speed distance).map fun v => v * v).sum
      ≤ speed * speed + 3 * (MIN_AXIS_SPEED * MIN_AXIS_SPEED) := by
  constructor
  · intro v hv
    simp only [move_axes_active_speeds, List.mem_map] at hv
    obtain ⟨d, _, rfl⟩ := hv
    rw [move_axes_axis_speed]
    exact adjust_axis_speed_range _
  · have hmm : move_axes_active_speeds dx dy dz speed distance
        = ([dx, dy, dz].filter fun d => decide (EPSILON < |d|)).map
            fun d => move_axes_axis_speed speed d distance := rfl
    rw [hmm, List.map_map]
    have h1 : (([dx, dy, dz].filter fun d => decide (EPSILON < |d|)).map
          ((fun v => v * v) ∘ fun d => move_axes_axis_speed speed d distance)).sum
        ≤ ([dx, dy, dz].map
            ((fun v => v * v) ∘ fun d => move_axes_axis_speed speed d distance)).sum := by
      have := sum_sq_filter_le [dx, dy, dz] (fun d => decide (EPSILON < |d|))
        (fun d => move_axes_axis_speed speed d distance)
      simpa [Function.comp] using this
    refine le_trans h1 ?_
    simp only [List.map_cons, List.map_nil, List.sum_cons, List.sum_nil,
      Function.comp, move_axes_axis_speed, add_zero]
    have key : ∀ d : ℚ,
        adjust_axis_speed |speed * d / distance| * adjust_axis_speed |speed * d / distance|
          ≤ (speed * d / distance) * (speed * d / distance)
            + MIN_AXIS_SPEED * MIN_AXIS_SPEED := by
      intro d
      have := adjust_axis_speed_sq_le |speed * d / distance|
      rwa [abs_mul_abs_self] at this
    have hsum : (speed * dx / distance) * (speed * dx / distance)
        + (speed * dy / distance) * (speed * dy / distance)
        + (speed * dz / distance) * (speed * dz / distance) = speed * speed := by
      have hne : distance ≠ 0 := ne_of_gt hd
      field_simp
      nlinarith [hsq]
    nlinarith [key dx, key dy, key dz]

/-- Witness for the amended C1 at the concrete move `(0,0,0) → (1,0,0)`
with requested speed `1/2` and distance `1`. -/
theorem c1_speeds_amended_witness :
    ((move_axes_active_speeds 1 0 0 (1/2) 1).map fun v => v * v).sum
      ≤ (1/2) * (1/2) + 3 * (MIN_AXIS_SPEED * MIN_AXIS_SPEED) :=
  (c1_speeds_amended (1/2) 1 0 0 1 (by norm_num) (by norm_num)).2

/-- C2 (code bug).  `move_absolute` and `move_relative` in
`src/controllers/smcd14_controller.py` write `1` to the start-request
register and return at once: the write trace contains a single
start-request value `1` — not the pulse `1` then `0` with a poll-until-
cleared deadline that the claim states and the test of the repository itself
(`test_start_request_reset.py`, asserting `start_writes == [1, 0]`)
requires. -/
theorem c2_start_request_not_pulsed :
    start_req_values (move_absolute_writes 1 (1/2)) = [1] ∧
    start_req_values (move_relative_writes (1/10) (1/5)) = [1] ∧
    ([1] : List ℕ) ≠ [1, 0] :=
  ⟨by decide, by decide, by decide⟩

/-- C3 (code bug).  `wait_until_in_position` in
`src/controllers/smcd14_controller.py` accepts no target and reads no
position: it returns success as soon as one polled status word has bit 4
set — here a single poll of status `16` while the axis position `0` is a
full `1` mm away from the target `1`, far outside `EPSILON`, contradicting
the claim (and the target-aware signature the manager and the test doubles
in `test_manipulator_manager.py` rely on). -/
theorem c3_wait_ignores_target :
    wait_until_in_position [16] = true ∧ ¬ |(0:ℚ) - 1| ≤ EPSILON :=
  ⟨by decide, by norm_num [EPSILON]⟩

/-- C4.  The register codec round-trips every finite 32-bit float:
`registers_to_float (float_to_registers w) = w` for every 32-bit pattern
`w`, where `float_to_registers` packs the float big-endian and returns
`(low word, high word)`. -/
theorem c4_codec_round_trip (w : ℕ) (h : w < 2 ^ 32) :
    registers_to_float (float_to_registers w) = w := by
  simp only [registers_to_float, float_to_registers, pack_float_be,
    pack_word_be, word_be]
  omega

/-- Witness for C4 at the pattern `0x3FC00000` (the binary32 float `1.5`). -/
theorem c4_codec_round_trip_witness :
    1069547520 < 2 ^ 32 ∧
      registers_to_float (float_to_registers 1069547520) = 1069547520 :=
  ⟨by decide, c4_codec_round_trip 1069547520 (by decide)⟩

/-- C6.  If the abort flag of an axis is set when the `_move_axes` wait loop
observes its non-arrival, the manager emits exactly an "aborted"
transaction-log entry and a benign status message — no `error_occurred`
event for that axis — and the abort flag is consumed, so the axis is no
longer in the aborted set afterwards. -/
theorem c6_abort_precedence (aborted : Finset String) (axis : String)
    (h : axis ∈ aborted) :
    handle_wait_result aborted axis .notArrived
        = ([.logged axis "aborted", .statusUpdated (axis ++ " move stopped")],
            aborted.erase axis, .abortedStop) ∧
      (∀ e ∈ (handle_wait_result aborted axis .notArrived).1,
        ∀ a, e ≠ .errorOccurred a) ∧
      axis ∉ (handle_wait_result aborted axis .notArrived).2.1 := by
  have heq : handle_wait_result aborted axis .notArrived
      = ([.logged axis "aborted", .statusUpdated (axis ++ " move stopped")],
          aborted.erase axis, .abortedStop) := by
    simp [handle_wait_result, consume_axis_abort, h]
  refine ⟨heq, ?_, ?_⟩
  · rw [heq]
    intro e he a
    simp only [List.mem_cons, List.not_mem_nil, or_false] at he
    rcases he with h1 | h1 <;> subst h1 <;> simp
  · rw [heq]
    exact Finset.not_mem_erase _ _

/-- Witness for C6: abort flag set for axis `x`, wait observes
non-arrival. -/
theorem c6_abort_precedence_witness :
    handle_wait_result {"x"} "x" .notArrived
      = ([.logged "x" "aborted", .statusUpdated ("x" ++ " move stopped")],
          ({"x"} : Finset String).erase "x", .abortedStop) :=
  (c6_abort_precedence {"x"} "x" (by simp)).1

/-- C7.  For every commanded axis with positive (hence finite) axis speed,
the wait timeout `_move_axes` passes to `wait_until_in_position` is the
expected travel time `|delta| / axis_speed` times the safety multiplier
`3`, floored at the minimum `15` seconds; it is monotone in the expected
travel time, not a global constant. -/
theorem c7_wait_timeout_scales (delta axis_speed : ℚ) (h : 0 < axis_speed) :
    move_axes_wait_timeout delta axis_speed
        = max 15 ((|delta| / axis_speed) * 3) ∧
      ∀ d2 v2 : ℚ, 0 < v2 → |delta| / axis_speed ≤ |d2| / v2 →
        move_axes_wait_timeout delta axis_speed
          ≤ move_axes_wait_timeout d2 v2 := by
  constructor
  · simp [move_axes_wait_timeout, h]
  · intro d2 v2 h2 hle
    simp only [move_axes_wait_timeout, if_pos h, if_pos h2]
    exact max_le_max le_rfl (mul_le_mul_of_nonneg_right hle (by norm_num))

/-- Witness for C7: a 30 mm travel at axis speed `1` gets timeout
`max 15 90 = 90`, larger than the 15 s floor. -/
theorem c7_wait_timeout_scales_witness :
    move_axes_wait_timeout 30 1 = max 15 ((|(30:ℚ)| / 1) * 3) :=
  (c7_wait_timeout_scales 30 1 (by norm_num)).1

/-- C5, counterexample.  Stop-and-go with nozzle diameter `1` mm, distance
`0.2` mm, requested speed `5e-5` (positive and below
`STOP_GO_SPEED_THRESHOLD`): exactly `2` hops are issued, but with measured
hop durations `3000` s and `1000` s the slept dwell is
`max(0, 2000-3000) + max(0, 2000-1000) = 1000` s, while the claimed
formula `max(0, 0.2/speed - measured_move_time) = max(0, 4000-4000)` gives
`0` — the claim fails when one hop overruns its per-hop budget. -/
theorem c5_stop_and_go_counterexample :
    (0 < (1/20000 : ℚ) ∧ (1/20000 : ℚ) < STOP_GO_SPEED_THRESHOLD) ∧
    move_axes_stop_and_go 1 (1/5) (1/20000) [3000, 1000] = some (2, 1000) ∧
    (1000 : ℚ) ≠ max 0 ((1/5) / (1/20000) - (3000 + 1000)) := by
  refine ⟨⟨by norm_num, by norm_num [STOP_GO_SPEED_THRESHOLD]⟩, ?_, by norm_num⟩
  norm_num [move_axes_stop_and_go, stop_go_steps, stop_go_segments,
    stop_go_hop_dwell, STOP_GO_STEP_FRACTION, STOP_GO_HOP_SPEED, EPSILON]
  decide

/-- C5, amended.  In the scenario (nozzle `1` mm, step fraction `0.1`,
distance `0.2` mm, positive requested speed below the stop-and-go
threshold) exactly `ceil(0.2/0.1) = 2` hop moves are issued, and the total
dwell equals `max(0, 0.2/requested_speed - measured_move_time)` provided no
hop has a measured duration exceeding its own per-hop budget
`0.1/requested_speed`; in general each hop dwells
`max(0, 0.1/requested_speed - t_i)` separately. -/
theorem c5_stop_and_go_amended (rs t1 t2 : ℚ) (hrs0 : 0 < rs)
    (hrs : rs < STOP_GO_SPEED_THRESHOLD) (ht1 : 0 < t1) (ht2 : 0 < t2)
    (hb1 : t1 ≤ (1/10) / rs) (hb2 : t2 ≤ (1/10) / rs) :
    move_axes_stop_and_go 1 (1/5) rs [t1, t2]
      = some (2, max 0 ((1/5) / rs - (t1 + t2))) := by
  rw [move_axes_stop_and_go, if_neg (not_le.mpr hrs0)]
  have hstep : max (1 * STOP_GO_STEP_FRACTION) EPSILON = 1/10 := by
    norm_num [STOP_GO_STEP_FRACTION, EPSILON]
  have hsteps : stop_go_steps (1/5) (1/10) = 2 := by
    norm_num [stop_go_steps]
    decide
  have hsegs : stop_go_segments (1/5) (1/10) 2 0 = [1/10, 1/10] := by
    norm_num [stop_go_segments]
  simp only [hstep, hsteps, hsegs, List.zipWith, List.sum_cons, List.sum_nil,
    add_zero]
  have hd1 : stop_go_hop_dwell (1/10) rs (max STOP_GO_HOP_SPEED rs) t1
      = (1/10) / rs - t1 := by
    rw [stop_go_hop_dwell]
    simp only [if_neg (not_le.mpr ht1)]
    exact max_eq_right (sub_nonneg.mpr hb1)
  have hd2 : stop_go_hop_dwell (1/10) rs (max STOP_GO_HOP_SPEED rs) t2
      = (1/10) / rs - t2 := by
    rw [stop_go_hop_dwell]
    simp only [if_neg (not_le.mpr ht2)]
    exact max_eq_right (sub_nonneg.mpr hb2)
  rw [hd1, hd2]
  have htot : (1/10) / rs - t1 + ((1/10) / rs - t2)
      = (1/5) / rs - (t1 + t2) := by
    field_simp
    ring
  rw [htot, max_eq_right]
  linarith [sub_nonneg.mpr hb1, sub_nonneg.mpr hb2, htot]

/-- Witness for the amended C5: requested speed `5e-5`, both hops measured
at `1000` s (within the `2000` s per-hop budget). -/
theorem c5_stop_and_go_amended_witness :
    move_axes_stop_and_go 1 (1/5) (1/20000) [1000, 1000]
      = some (2, max 0 ((1/5) / (1/20000) - (1000 + 1000))) :=
  c5_stop_and_go_amended (1/20000) 1000 1000 (by norm_num)
    (by norm_num [STOP_GO_SPEED_THRESHOLD]) (by norm_num) (by norm_num)
    (by norm_num) (by norm_num)

/-- C8.  When `move_axis` reads the axis position successfully and it is
within `EPSILON` of the target, the action is a no-op: the only hardware
interaction is the position read — no `motor_on`, `move_absolute` or wait
transaction — and it reports "already at position". -/
theorem c8_move_axis_noop (c position speed : ℚ) (wres : WaitOutcome)
    (abortFlag : Bool) (h : |c - position| ≤ EPSILON) :
    move_axis_action (some c) position speed wres abortFlag
      = ([.readPosition], .alreadyAt) := by
  simp [move_axis_action, h]

/-- Witness for C8: current position `1`, target `1`. -/
theorem c8_move_axis_noop_witness :
    move_axis_action (some 1) 1 (1/2) .arrived false
      = ([.readPosition], .alreadyAt) :=
  c8_move_axis_noop 1 1 (1/2) .arrived false (by norm_num [EPSILON])

/-- C9.  `validate_speed` raises exactly when the requested speed is below
`MIN_AXIS_SPEED` or above `sqrt 3 * MAX_AXIS_SPEED`; for every speed in
`[MIN_AXIS_SPEED, sqrt 3 * MAX_AXIS_SPEED]` it returns without error. -/
theorem c9_validate_speed_iff (s : ℚ) :
    validate_speed_errors s = true ↔
      ((s : ℝ) < ((MIN_AXIS_SPEED : ℚ) : ℝ) ∨
        Real.sqrt 3 * ((MAX_AXIS_SPEED : ℚ) : ℝ) < (s : ℝ)) := by
  simp only [validate_speed_errors, Bool.or_eq_true, decide_eq_true_eq]
  by_cases hlt : s < MIN_AXIS_SPEED
  · exact iff_of_true (Or.inl hlt) (Or.inl (by exact_mod_cast hlt))
  · have hpos : 0 < s :=
      lt_of_lt_of_le (by norm_num [MIN_AXIS_SPEED]) (le_of_not_lt hlt)
    have hposR : (0:ℝ) < (s:ℝ) := by exact_mod_cast hpos
    have hltR : ¬ (s:ℝ) < ((MIN_AXIS_SPEED : ℚ) : ℝ) := by exact_mod_cast hlt
    have hmax : ((MAX_AXIS_SPEED : ℚ) : ℝ) = 1 := by norm_num [MAX_AXIS_SPEED]
    have hkey : 3 * (MAX_AXIS_SPEED * MAX_AXIS_SPEED) < s * s ↔
        Real.sqrt 3 * ((MAX_AXIS_SPEED : ℚ) : ℝ) < (s:ℝ) := by
      rw [hmax, mul_one, Real.sqrt_lt' hposR]
      constructor
      · intro hq
        have : (3:ℚ) < s * s := by
          calc (3:ℚ) = 3 * (MAX_AXIS_SPEED * MAX_AXIS_SPEED) := by
                norm_num [MAX_AXIS_SPEED]
            _ < s * s := hq
        rw [sq]
        exact_mod_cast this
      · intro hr
        rw [sq] at hr
        have : (3:ℚ) < s * s := by exact_mod_cast hr
        calc 3 * (MAX_AXIS_SPEED * MAX_AXIS_SPEED) = (3:ℚ) := by
              norm_num [MAX_AXIS_SPEED]
          _ < s * s := this
    rw [or_iff_right hlt, or_iff_right hltR]
    exact hkey

/-- C10.  `set_nozzle_diameter` stores `max(0, d)`, so the stored nozzle
diameter is never negative, and after a negative input the stop-and-go
delegation test of `_move_axes` (which requires a strictly positive nozzle
diameter) is disabled for every speed. -/
theorem c10_nozzle_diameter_clamped (d : ℚ) :
    set_nozzle_diameter d = max 0 d ∧ 0 ≤ set_nozzle_diameter d ∧
      (d < 0 → ∀ (force_direct : Bool) (speed : ℚ),
        stop_go_delegates force_direct speed (set_nozzle_diameter d)
          = false) := by
  refine ⟨rfl, le_max_left 0 d, ?_⟩
  intro hd force_direct speed
  have h0 : set_nozzle_diameter d = 0 := max_eq_left hd.le
  simp [stop_go_delegates, h0]

/-- Witness for C10 at nozzle diameter `-1`. -/
theorem c10_nozzle_diameter_clamped_witness :
    set_nozzle_diameter (-1) = max 0 (-1) ∧ 0 ≤ set_nozzle_diameter (-1) ∧
      stop_go_delegates false (1/20000) (set_nozzle_diameter (-1)) = false := by
  obtain ⟨h1, h2, h3⟩ := c10_nozzle_diameter_clamped (-1)
  exact ⟨h1, h2, h3 (by norm_num) false (1/20000)⟩
